import Mathlib

/-!
Verification of the array-addition benchmark and device-selection logic of the
`gpu-programming` repository (OpenCL / CUDA instructional programs).

Sources embedded here:
* `src/opencl/vector_add/add.cpp` — benchmark host: `main`, `getDefaultDevice`,
  device initialization and kernel build, `seqSumArrays`, `parSumArrays`,
  `checkEquality`;
* `src/opencl/vector_add/add.cl` — the device kernel `add`;
* `src/unnamed/part_000` — the device-capability query program (its `main`
  returns `-1` when no platform or no device is found, `0` otherwise);
* `src/unnamed/part_001` — the hello-world OpenCL host (`get_default_device`
  and a `main` that exits 1 on failures, 0 on success);
* the CUDA hello program (a `main` that always returns 0).

Modelling conventions:
* A host or device array is a total function `Nat → Int` (the contents of the
  memory a pointer points to); C `int` values are modelled as mathematical
  integers, which is faithful on every execution in which no signed overflow
  occurs (signed overflow is undefined behaviour in both C++ and OpenCL C, so
  no defined behaviour is lost).
* The `int N` length parameter is an `Int`; a loop `for(int i = 0; i < N; i++)`
  runs exactly `N.toNat` iterations.
* `exit(1)` / fatal failures are modelled with explicit error results, and the
  observable behaviour of `main` (stderr, stdout status line, exit code) as an
  event trace plus an exit code.
* OpenCL runtime semantics used: `clCreateKernel(program, name)` fails with
  `CL_INVALID_KERNEL_NAME` when `name` is not a `__kernel` function of the
  built program source; a buffer created with `CL_MEM_COPY_HOST_PTR` holds a
  copy of the host array; reading back a buffer that no kernel has written
  yields its unspecified initial contents, which we keep as an explicit
  parameter `cbufInit`.
-/

/-- The contents of an `int` array in memory: value at each index. -/
def Mem : Type := Nat → Int

/-- Writing one cell of an array: `m[i] = v`. -/
def store (m : Mem) (i : Nat) (v : Int) : Mem :=
  fun j => if j = i then v else m j

/-- The loop body of `seqSumArrays` in `add.cpp`:
`for(int i = 0; i < N; i++) c[i] = a[i] + b[i];`, unrolled with an explicit
iteration count `fuel` and current index `i`. -/
def seqSumLoop (a b : Mem) (c : Mem) (i : Nat) : Nat → Mem
  | 0 => c
  | fuel + 1 => seqSumLoop a b (store c i (a i + b i)) (i + 1) fuel

/-- Number of iterations the `seqSumArrays` loop performs for the `int`
argument `N`: the loop `for(int i = 0; i < N; i++)` runs `max N 0` times. -/
def seqSumIterations (N : Int) : Nat := N.toNat

/-- `add.cpp`: `void seqSumArrays(int* a, int* b, int* c, const int N)` —
sequentially performs `c[i] = a[i] + b[i]` for `0 <= i < N`; returns the
resulting contents of the array `c`. -/
def seqSumArrays (a b c : Mem) (N : Int) : Mem :=
  seqSumLoop a b c 0 (seqSumIterations N)

/-- The loop of `checkEquality` in `add.cpp`:
`for(int i = 0; i < N; i++) { if(c1[i] != c2[i]) return false; } return true;`,
with explicit remaining iteration count `fuel` and current index `i`. -/
def checkEqualityLoop (c1 c2 : Mem) (i : Nat) : Nat → Bool
  | 0 => true
  | fuel + 1 => if c1 i ≠ c2 i then false else checkEqualityLoop c1 c2 (i + 1) fuel

/-- `add.cpp`: `bool checkEquality(int* c1, int* c2, const int N)`. -/
def checkEquality (c1 c2 : Mem) (N : Int) : Bool :=
  checkEqualityLoop c1 c2 0 N.toNat

/-- The kernel names (`__kernel` functions) of the program source `add.cl`:
it defines exactly one kernel, `__kernel void add(...)`. -/
def addClKernelNames : List String := ["add"]

/-- The kernel name `add.cpp` requests in `parSumArrays`:
`cl::Kernel kernel(program, "sumArrays");`. -/
def parSumKernelName : String := "sumArrays"

/-- One work-item of the `add` kernel of `add.cl`:
`int idx = get_global_id(0); c[idx] = a[idx] + b[idx];`. -/
def addKernelUnit (a b : Mem) (c : Mem) (idx : Nat) : Mem :=
  store c idx (a idx + b idx)

/-- Device execution of `enqueueNDRangeKernel` for the `add` kernel: the
work-items are executed in some sequentially-consistent interleaving; since
every work-item touches a single cell, an interleaving is a list `order` of
global ids, each applied atomically. -/
def runNDRange (a b : Mem) (c : Mem) (order : List Nat) : Mem :=
  order.foldl (addKernelUnit a b) c

/-- `add.cpp`: `void parSumArrays(int* a, int* b, int* c, const int N)`.
Buffers `aBuf`, `bBuf` are device copies of `a`, `b` (`CL_MEM_COPY_HOST_PTR`);
`cBuf` is an unwritten output buffer whose unspecified initial contents are the
parameter `cbufInit`. `cl::Kernel kernel(program, "sumArrays")` performs a
lookup of `"sumArrays"` among the kernels of the program built from `add.cl`;
when the lookup fails (`CL_INVALID_KERNEL_NAME`) the error is not checked, the
subsequent `enqueueNDRangeKernel` does not run any work-item, and the blocking
`enqueueReadBuffer` copies the first `N` cells of `cBuf` as they are into the
host array `c`. `order` is the interleaving the device chooses for the `N`
work-items when the kernel does run. -/
def parSumArrays (a b c : Mem) (N : Int) (cbufInit : Mem) (order : List Nat) : Mem :=
  let deviceOut : Mem :=
    if addClKernelNames.contains parSumKernelName then
      runNDRange a b cbufInit order
    else
      cbufInit
  fun i => if i < N.toNat then deviceOut i else c i

/-- Errors of device selection (`getDefaultDevice` in `add.cpp`,
`get_default_device` in the hello-world host): each is reported on stderr and
followed by `exit(1)`. -/
inductive SelectError
  | noPlatform
  | noDevice
deriving DecidableEq

/-- The one-line stderr message each selection failure prints. -/
def SelectError.message : SelectError → String
  | .noPlatform => "no platforms found!"
  | .noDevice => "no devices found!"

/-- `add.cpp`: `cl::Device getDefaultDevice()` (identical logic in
`get_default_device` of the hello-world host). A platform is modelled by its
list of devices (`getDevices` with `CL_DEVICE_TYPE_ALL`); devices are opaque
handles `α`. Empty platform list: stderr `no platforms found!`, `exit(1)`;
empty device list of the first platform: stderr `no devices found!`,
`exit(1)`; otherwise the first device of the first platform is returned. -/
def getDefaultDevice {α : Type} (platforms : List (List α)) : Except SelectError α :=
  match platforms with
  | [] => .error .noPlatform
  | p :: _ =>
    match p with
    | [] => .error .noDevice
    | d :: _ => .ok d

/-- Observable events of a benchmark run of `add.cpp`: one `seqSum` event per
invocation of `seqSumArrays`, one `parSum` event per invocation of
`parSumArrays`, and the diagnostic (stderr) and report (stdout) lines. The
stdout lines carrying wall-clock timings are not modelled (real time); only
the pass/fail status line is kept. -/
inductive Event
  | seqSum
  | parSum
  | stderrMsg (s : String)
  | stdoutMsg (s : String)
deriving DecidableEq

/-- Outcome of one process run: its event trace, its exit code, and — when the
run got as far as the equality check — the value `checkEquality` returned. -/
structure RunResult where
  trace : List Event
  exitCode : Int
  equalFlag : Option Bool

/-- `add.cpp`: `const int EXECUTIONS = 10;` — repetitions of each path. -/
def EXECUTIONS : Nat := 10

/-- `add.cpp`: `int ARRAYS_DIM = 1 << 20;`. -/
def ARRAYS_DIM : Int := 2 ^ 20

/-- `main`'s input array `a`: `std::vector<int> a(ARRAYS_DIM, 3);`. -/
def benchA : Mem := fun _ => 3

/-- `main`'s input array `b`: `std::vector<int> b(ARRAYS_DIM, 5);`. -/
def benchB : Mem := fun _ => 5

/-- `main`'s local `cs` after the sequential loop: `std::vector<int>
cs(ARRAYS_DIM)` is zero-initialized, then `seqSumArrays` runs `EXECUTIONS`
times over it. -/
def benchCs : Mem :=
  (List.range EXECUTIONS).foldl (fun m _ => seqSumArrays benchA benchB m ARRAYS_DIM)
    (fun _ => 0)

/-- `main`'s local `cp` after the parallel loop: `std::vector<int>
cp(ARRAYS_DIM)` is zero-initialized, then `parSumArrays` runs `EXECUTIONS`
times over it, the `k`-th repetition with its own fresh device buffer
(initial contents `cbufs k`) and device-chosen interleaving `orders k`. -/
def benchCp (cbufs : Nat → Mem) (orders : Nat → List Nat) : Mem :=
  (List.range EXECUTIONS).foldl
    (fun m k => parSumArrays benchA benchB m ARRAYS_DIM (cbufs k) (orders k))
    (fun _ => 0)

/-- `add.cpp` `main`, as a function of the environment: `platforms` is what
platform/device enumeration returns (each platform modelled by its device
list), `buildOk` tells whether `program.build()` of `add.cl` succeeds and
`buildLog` is the diagnostic text printed on build failure, `cbufs k` is the
unspecified initial content of the output buffer `cBuf` of the `k`-th
`parSumArrays` call, and `orders k` is the work-item interleaving the device
would use in that call. Control flow follows the source: the sequential loop
runs first; only then is the device initialized (inside which a missing
platform or device, or a failed build, prints to stderr and exits 1); then the
parallel loop, the equality check, the report, and `return 0`. -/
def mainAdd (platforms : List (List Nat)) (buildOk : Bool) (buildLog : String)
    (cbufs : Nat → Mem) (orders : Nat → List Nat) : RunResult :=
  let seqTrace := List.replicate EXECUTIONS Event.seqSum
  let cs := benchCs
  match getDefaultDevice platforms with
  | .error e =>
    { trace := seqTrace ++ [Event.stderrMsg e.message], exitCode := 1, equalFlag := none }
  | .ok _ =>
    if buildOk then
      let parTrace := List.replicate EXECUTIONS Event.parSum
      let cp := benchCp cbufs orders
      let equal := checkEquality cs cp ARRAYS_DIM
      { trace := seqTrace ++ parTrace ++
          [Event.stdoutMsg ("status: " ++ if equal then "SUCCESS!" else "FAILED!")],
        exitCode := 0,
        equalFlag := some equal }
    else
      { trace := seqTrace ++ [Event.stderrMsg buildLog], exitCode := 1, equalFlag := none }

/-- `main` of the device-capability query program (`src/unnamed/part_000`):
`return -1` when platform enumeration is empty, `return -1` when the first
platform's device list is empty, otherwise print the device properties and
`return 0`. -/
def deviceInfoMain (platforms : List (List Nat)) : Int :=
  match platforms with
  | [] => -1
  | p :: _ =>
    match p with
    | [] => -1
    | _ :: _ => 0

/-- `main` of the hello-world OpenCL host (`src/unnamed/part_001`):
`get_default_device` exits 1 on a missing platform or device; a failed
`program.build()` exits 1; otherwise the kernel runs and `main` returns 0. -/
def helloMain (platforms : List (List Nat)) (buildOk : Bool) : Int :=
  match getDefaultDevice platforms with
  | .error _ => 1
  | .ok _ => if buildOk then 0 else 1

/-- `main` of the CUDA hello program: launches the `hello` kernel,
synchronizes, prints, and always returns 0. -/
def cudaHelloMain : Int := 0

/-- `add.cpp` `main`, line 59: the reported performance gain
`100 * (seqTime - parTime) / parTime`. The C `double` arithmetic is modelled
over `ℚ`; no branch guards the divisor. -/
def performanceGain (seqTime parTime : ℚ) : ℚ :=
  100 * (seqTime - parTime) / parTime

-- Sanity checks of the embedding on concrete inputs.
example : seqSumArrays (fun _ => 3) (fun _ => 5) (fun _ => 0) 4 2 = 8 := by decide
example : seqSumArrays (fun _ => 3) (fun _ => 5) (fun _ => 0) 4 4 = 0 := by decide
example : seqSumArrays (fun _ => 3) (fun _ => 5) (fun _ => 0) (-2) 0 = 0 := by decide
example : checkEquality (fun _ => 1) (fun _ => 1) 3 = true := by decide
example : checkEquality (fun i => if i = 2 then 9 else 1) (fun _ => 1) 3 = false := by decide
example : checkEquality (fun _ => 0) (fun _ => 1) 0 = true := by decide
example : getDefaultDevice ([] : List (List Nat)) = .error .noPlatform := rfl
example : getDefaultDevice [([] : List Nat), [7]] = .error .noDevice := rfl
example : getDefaultDevice [[4, 5], [7]] = .ok 4 := rfl
example : addClKernelNames.contains parSumKernelName = false := by decide
example : parSumArrays (fun _ => 3) (fun _ => 5) (fun _ => 0) 4 (fun _ => 0) [0, 1, 2, 3] 0 = 0 := by
  decide
example : runNDRange (fun _ => 3) (fun _ => 5) (fun _ => 0) [0, 1, 2, 3] 2 = 8 := by decide

/-! ### Helper lemmas about the embedded functions -/

theorem store_self (m : Mem) (i : Nat) (v : Int) : store m i v i = v := by
  simp [store]

theorem store_other (m : Mem) (i : Nat) (v : Int) {j : Nat} (h : j ≠ i) :
    store m i v j = m j := by
  simp [store, h]

theorem seqSumLoop_lt (a b : Mem) (fuel : Nat) :
    ∀ (c : Mem) (i j : Nat), j < i → seqSumLoop a b c i fuel j = c j := by
  induction fuel with
  | zero => intro c i j _; rfl
  | succ fuel ih =>
    intro c i j hj
    show seqSumLoop a b (store c i (a i + b i)) (i + 1) fuel j = c j
    rw [ih _ _ _ (Nat.lt_succ_of_lt hj), store_other _ _ _ (Nat.ne_of_lt hj)]

theorem seqSumLoop_ge (a b : Mem) (fuel : Nat) :
    ∀ (c : Mem) (i j : Nat), i + fuel ≤ j → seqSumLoop a b c i fuel j = c j := by
  induction fuel with
  | zero => intro c i j _; rfl
  | succ fuel ih =>
    intro c i j hj
    show seqSumLoop a b (store c i (a i + b i)) (i + 1) fuel j = c j
    have hij : i < j := Nat.lt_of_lt_of_le (Nat.lt_add_of_pos_right (Nat.succ_pos fuel)) hj
    rw [ih _ _ _ (by omega), store_other _ _ _ (Nat.ne_of_gt hij)]

theorem seqSumLoop_mem (a b : Mem) (fuel : Nat) :
    ∀ (c : Mem) (i j : Nat), i ≤ j → j < i + fuel →
      seqSumLoop a b c i fuel j = a j + b j := by
  induction fuel with
  | zero => intro c i j h1 h2; omega
  | succ fuel ih =>
    intro c i j h1 h2
    show seqSumLoop a b (store c i (a i + b i)) (i + 1) fuel j = a j + b j
    by_cases hji : j = i
    · subst hji
      rw [seqSumLoop_lt _ _ _ _ _ _ (Nat.lt_succ_self j), store_self]
    · exact ih _ _ _ (by omega) (by omega)

/-- Functional behaviour of `seqSumArrays` inside the written range. -/
theorem seqSumArrays_apply (a b c : Mem) (N : Int) {i : Nat} (hi : i < N.toNat) :
    seqSumArrays a b c N i = a i + b i :=
  seqSumLoop_mem a b N.toNat c 0 i (Nat.zero_le i) (by omega)

/-- `seqSumArrays` does not touch cells at or beyond index `N`. -/
theorem seqSumArrays_frame (a b c : Mem) (N : Int) {j : Nat} (hj : N.toNat ≤ j) :
    seqSumArrays a b c N j = c j :=
  seqSumLoop_ge a b N.toNat c 0 j (by omega)

theorem checkEqualityLoop_iff (c1 c2 : Mem) (fuel : Nat) :
    ∀ i : Nat, checkEqualityLoop c1 c2 i fuel = true ↔
      ∀ k : Nat, k < fuel → c1 (i + k) = c2 (i + k) := by
  induction fuel with
  | zero => intro i; simp [checkEqualityLoop]
  | succ fuel ih =>
    intro i
    show (if c1 i ≠ c2 i then false else checkEqualityLoop c1 c2 (i + 1) fuel) = true ↔ _
    by_cases h : c1 i = c2 i
    · simp only [h, ne_eq, not_true_eq_false, if_neg, if_false]
      rw [ih (i + 1)]
      constructor
      · intro hall k hk
        rcases Nat.eq_zero_or_pos k with hk0 | hkpos
        · simpa [hk0] using h
        · have := hall (k - 1) (by omega)
          have hrw : i + 1 + (k - 1) = i + k := by omega
          rwa [hrw] at this
      · intro hall k hk
        have := hall (k + 1) (by omega)
        have hrw : i + (k + 1) = i + 1 + k := by omega
        rwa [hrw] at this
    · simp only [h, ne_eq, not_false_eq_true, if_true]
      constructor
      · intro hfalse; exact absurd hfalse (by simp)
      · intro hall; exact absurd (by simpa using hall 0 (Nat.succ_pos fuel)) h

/-- `checkEquality` decides elementwise equality on `[0, N)`. -/
theorem checkEquality_iff (c1 c2 : Mem) (N : Int) :
    checkEquality c1 c2 N = true ↔ ∀ i : Nat, i < N.toNat → c1 i = c2 i := by
  have h := checkEqualityLoop_iff c1 c2 N.toNat 0
  simpa [checkEquality] using h

/-- The loop of `checkEquality` returns `false` the moment the current index
mismatches, whatever the remaining fuel: the later cells are never read. -/
theorem checkEqualityLoop_head_ne (c1 c2 : Mem) {i : Nat} (h : c1 i ≠ c2 i)
    {fuel : Nat} (hf : 0 < fuel) : checkEqualityLoop c1 c2 i fuel = false := by
  cases fuel with
  | zero => omega
  | succ fuel =>
    show (if c1 i ≠ c2 i then false else checkEqualityLoop c1 c2 (i + 1) fuel) = false
    simp [h]

/-- The kernel-name lookup of `parSumArrays` fails, so the read-back returns
the unwritten contents of `cBuf` on `[0, N)` and leaves `c` alone beyond. -/
theorem parSumArrays_noDispatch (a b c : Mem) (N : Int) (cbufInit : Mem)
    (order : List Nat) :
    parSumArrays a b c N cbufInit order =
      fun i => if i < N.toNat then cbufInit i else c i := by
  have hname : parSumKernelName ∉ addClKernelNames := by decide
  simp [parSumArrays, hname]

/-- Any two work-item executions of the `add` kernel commute: each writes a
value depending only on its own global id. -/
theorem addKernelUnit_comm (a b : Mem) (c : Mem) (i j : Nat) :
    addKernelUnit a b (addKernelUnit a b c i) j =
      addKernelUnit a b (addKernelUnit a b c j) i := by
  by_cases hij : i = j
  · subst hij; rfl
  · have hji : j ≠ i := fun h => hij h.symm
    funext x
    by_cases hxj : x = j <;> by_cases hxi : x = i
    · exact absurd (hxi.symm.trans hxj) hij
    · simp [addKernelUnit, store, hxj, hxi, hji]
    · simp [addKernelUnit, store, hxj, hxi, hij]
    · simp [addKernelUnit, store, hxj, hxi]

/-- The device may run the work-items in any order: the result is the same. -/
theorem runNDRange_perm (a b c : Mem) {o1 o2 : List Nat} (hp : o1.Perm o2) :
    runNDRange a b c o1 = runNDRange a b c o2 :=
  hp.foldl_eq' (fun x _ y _ z => addKernelUnit_comm a b z x y) c

/-- Dispatching the `add` kernel over the ids `i, i+1, ..., i+fuel-1` in order
is exactly the sequential loop. -/
theorem runNDRange_range' (a b : Mem) (fuel : Nat) :
    ∀ (c : Mem) (i : Nat), runNDRange a b c (List.range' i fuel) = seqSumLoop a b c i fuel := by
  induction fuel with
  | zero => intro c i; rfl
  | succ fuel ih =>
    intro c i
    rw [List.range'_succ]
    show runNDRange a b (addKernelUnit a b c i) (List.range' (i + 1) fuel) = _
    rw [ih]
    rfl

/-- Dispatching the `add` kernel over any interleaving of the `N` global ids
computes exactly what the sequential loop computes. -/
theorem runNDRange_eq_seq (a b c : Mem) (N : Int) {order : List Nat}
    (hp : order.Perm (List.range N.toNat)) :
    runNDRange a b c order = seqSumArrays a b c N := by
  rw [runNDRange_perm a b c hp, List.range_eq_range', runNDRange_range']
  rfl

/-- After at least one repetition of the sequential loop of `main`, every cell
inside the range holds `a i + b i`. -/
theorem seqFold_apply (a b : Mem) (N : Int) (c : Mem) (k : Nat) (hk : 0 < k)
    {i : Nat} (hi : i < N.toNat) :
    ((List.range k).foldl (fun m _ => seqSumArrays a b m N) c) i = a i + b i := by
  cases k with
  | zero => omega
  | succ k =>
    rw [List.range_succ, List.foldl_append]
    simp only [List.foldl_cons, List.foldl_nil]
    exact seqSumArrays_apply a b _ N hi

/-- After `k > 0` repetitions of the parallel loop of `main`, every cell inside
the range holds what the read-back of the last repetition delivered: the
unwritten contents of that repetition's output buffer. -/
theorem parFold_apply (a b : Mem) (N : Int) (cbufs : Nat → Mem)
    (orders : Nat → List Nat) (c : Mem) (k : Nat) (hk : 0 < k)
    {i : Nat} (hi : i < N.toNat) :
    ((List.range k).foldl
        (fun m j => parSumArrays a b m N (cbufs j) (orders j)) c) i
      = cbufs (k - 1) i := by
  cases k with
  | zero => omega
  | succ k =>
    rw [List.range_succ, List.foldl_append]
    simp only [List.foldl_cons, List.foldl_nil]
    rw [parSumArrays_noDispatch]
    simp [hi]

theorem benchCs_apply {i : Nat} (hi : i < ARRAYS_DIM.toNat) : benchCs i = 8 :=
  seqFold_apply benchA benchB ARRAYS_DIM _ EXECUTIONS (by decide) hi

theorem benchCp_apply (cbufs : Nat → Mem) (orders : Nat → List Nat)
    {i : Nat} (hi : i < ARRAYS_DIM.toNat) :
    benchCp cbufs orders i = cbufs (EXECUTIONS - 1) i :=
  parFold_apply benchA benchB ARRAYS_DIM cbufs orders _ EXECUTIONS (by decide) hi

/-- `main` on an environment with no platform: the sequential loop has run,
then device initialization prints `no platforms found!` and exits 1. -/
theorem mainAdd_noPlatform (bOk : Bool) (log : String) (cbufs : Nat → Mem)
    (orders : Nat → List Nat) :
    mainAdd [] bOk log cbufs orders =
      { trace := List.replicate EXECUTIONS Event.seqSum ++
          [Event.stderrMsg "no platforms found!"],
        exitCode := 1, equalFlag := none } := rfl

/-- `main` on an environment whose first platform has no device. -/
theorem mainAdd_noDevice (ps : List (List Nat)) (bOk : Bool) (log : String)
    (cbufs : Nat → Mem) (orders : Nat → List Nat) :
    mainAdd ([] :: ps) bOk log cbufs orders =
      { trace := List.replicate EXECUTIONS Event.seqSum ++
          [Event.stderrMsg "no devices found!"],
        exitCode := 1, equalFlag := none } := rfl

/-- `main` when the kernel build fails: the build log goes to stderr, exit 1. -/
theorem mainAdd_buildFail (d : Nat) (ds : List Nat) (ps : List (List Nat))
    (log : String) (cbufs : Nat → Mem) (orders : Nat → List Nat) :
    mainAdd ((d :: ds) :: ps) false log cbufs orders =
      { trace := List.replicate EXECUTIONS Event.seqSum ++ [Event.stderrMsg log],
        exitCode := 1, equalFlag := none } := rfl

/-- `main` when a device exists and the build succeeds: both loops run, the
status line reports the equality check, and the exit code is 0. -/
theorem mainAdd_success (d : Nat) (ds : List Nat) (ps : List (List Nat))
    (log : String) (cbufs : Nat → Mem) (orders : Nat → List Nat) :
    mainAdd ((d :: ds) :: ps) true log cbufs orders =
      { trace := List.replicate EXECUTIONS Event.seqSum ++
          List.replicate EXECUTIONS Event.parSum ++
          [Event.stdoutMsg ("status: " ++
            if checkEquality benchCs (benchCp cbufs orders) ARRAYS_DIM
            then "SUCCESS!" else "FAILED!")],
        exitCode := 0,
        equalFlag := some (checkEquality benchCs (benchCp cbufs orders) ARRAYS_DIM) } := rfl

/-! ### Claim theorems -/

/-- C1 (code bug): `parSumArrays` cannot return the sequential sum, because
`add.cpp` requests the kernel `"sumArrays"` while the program built from
`add.cl` defines only the kernel `"add"`: the name lookup fails, no work-item
runs, and the read-back delivers the unwritten buffer contents. Evaluated at
the failing input `a = [3,3,3,3]`, `b = [5,5,5,5]` with a zeroed device
buffer: the parallel path leaves `c[0] = 0` whereas the sequential path
computes `c[0] = 8`. -/
theorem parSum_kernelName_mismatch :
    addClKernelNames.contains parSumKernelName = false ∧
    parSumArrays benchA benchB (fun _ => 0) 4 (fun _ => 0) [0, 1, 2, 3] 0 = 0 ∧
    seqSumArrays benchA benchB (fun _ => 0) 4 0 = 8 := by decide

/-- C2 counterexample: with platform enumeration empty, the vector-add process
does exit with status 1 after printing `no platforms found!`, but the very
first event of the run is a sequential array-sum computation — `main` runs the
sequential loop before initializing the device, so the exit does not happen
before all computation. -/
theorem mainAdd_computes_before_exit :
    (mainAdd [] true "" (fun _ _ => 0) (fun _ => [])).exitCode = 1 ∧
    Event.stderrMsg "no platforms found!" ∈
      (mainAdd [] true "" (fun _ _ => 0) (fun _ => [])).trace ∧
    (mainAdd [] true "" (fun _ _ => 0) (fun _ => [])).trace.head? =
      some Event.seqSum := by
  refine ⟨rfl, ?_, rfl⟩
  rw [mainAdd_noPlatform]
  simp

/-- C2 (amended): if platform or device enumeration returns an empty set, the
vector-add process exits with status 1 and an error message mentioning `no
platforms` or `no devices` appears on the diagnostic stream, and this happens
before any parallel computation is attempted; the sequential array-sum
computation, however, has already run, since `main` performs the sequential
loop before initializing the device. -/
theorem mainAdd_emptyEnum_exits :
    ∀ (ps : List (List Nat)) (bOk : Bool) (log : String) (cbufs : Nat → Mem)
      (orders : Nat → List Nat),
      ((mainAdd [] bOk log cbufs orders).exitCode = 1 ∧
        Event.stderrMsg "no platforms found!" ∈
          (mainAdd [] bOk log cbufs orders).trace ∧
        Event.parSum ∉ (mainAdd [] bOk log cbufs orders).trace) ∧
      ((mainAdd ([] :: ps) bOk log cbufs orders).exitCode = 1 ∧
        Event.stderrMsg "no devices found!" ∈
          (mainAdd ([] :: ps) bOk log cbufs orders).trace ∧
        Event.parSum ∉ (mainAdd ([] :: ps) bOk log cbufs orders).trace) := by
  intro ps bOk log cbufs orders
  refine ⟨⟨rfl, ?_, ?_⟩, ⟨rfl, ?_, ?_⟩⟩ <;>
    simp [mainAdd_noPlatform, mainAdd_noDevice, List.mem_replicate]

/-- C3 counterexample: the device-capability query program (`part_000`)
returns `-1`, not `1`, when platform enumeration is empty — so not every
program of the repository exits with code 1 on a fatal precondition failure. -/
theorem deviceInfoMain_returns_neg_one :
    deviceInfoMain [] = -1 ∧ (-1 : Int) ≠ 1 := by decide

/-- C3 (amended): every program exits with code 0 on success; the vector-add
and hello-world programs exit with code 1 on any fatal precondition failure
(no platform, no device, kernel build failure), while the device-capability
query program returns `-1` when no platform or no device is found, and the
CUDA hello program has no failure path. -/
theorem exitCodes_amended :
    ∀ (ps : List (List Nat)) (d : Nat) (ds : List Nat) (bOk : Bool)
      (log : String) (cbufs : Nat → Mem) (orders : Nat → List Nat),
      (mainAdd [] bOk log cbufs orders).exitCode = 1 ∧
      (mainAdd ([] :: ps) bOk log cbufs orders).exitCode = 1 ∧
      (mainAdd ((d :: ds) :: ps) false log cbufs orders).exitCode = 1 ∧
      (mainAdd ((d :: ds) :: ps) true log cbufs orders).exitCode = 0 ∧
      helloMain [] bOk = 1 ∧
      helloMain ([] :: ps) bOk = 1 ∧
      helloMain ((d :: ds) :: ps) false = 1 ∧
      helloMain ((d :: ds) :: ps) true = 0 ∧
      deviceInfoMain [] = -1 ∧
      deviceInfoMain ([] :: ps) = -1 ∧
      deviceInfoMain ((d :: ds) :: ps) = 0 ∧
      cudaHelloMain = 0 :=
  fun _ _ _ _ _ _ _ =>
    ⟨rfl, rfl, rfl, rfl, rfl, rfl, rfl, rfl, rfl, rfl, rfl, rfl⟩

/-- C4: `seqSumArrays` stores `a[i] + b[i]` in `c[i]` for every index
`0 ≤ i < N`, for all inputs. -/
theorem seqSumArrays_correct (a b c : Mem) (N : Int) (i : Nat)
    (hi : i < N.toNat) : seqSumArrays a b c N i = a i + b i :=
  seqSumArrays_apply a b c N hi

theorem seqSumArrays_correct_witness :
    (0 : Nat) < (4 : Int).toNat ∧
      seqSumArrays benchA benchB (fun _ => 0) 4 0 = benchA 0 + benchB 0 :=
  ⟨by decide, seqSumArrays_correct benchA benchB (fun _ => 0) 4 0 (by decide)⟩

/-- C5: `checkEquality c1 c2 N` returns `true` iff `c1[i] == c2[i]` for every
`0 ≤ i < N`, and its loop returns `false` at the first mismatching index
without inspecting any later cell (whatever the remaining iteration budget);
the embedding is a pure function of its arguments. -/
theorem checkEquality_correct (c1 c2 : Mem) (N : Int) :
    (checkEquality c1 c2 N = true ↔ ∀ i : Nat, i < N.toNat → c1 i = c2 i) ∧
    (∀ i fuel : Nat, c1 i ≠ c2 i → 0 < fuel →
      checkEqualityLoop c1 c2 i fuel = false) :=
  ⟨checkEquality_iff c1 c2 N,
   fun _ _ h hf => checkEqualityLoop_head_ne c1 c2 h hf⟩

theorem checkEquality_correct_witness :
    checkEquality benchA benchA 3 = true ∧
      checkEqualityLoop benchA benchB 0 5 = false :=
  ⟨(checkEquality_correct benchA benchA 3).1.mpr (fun _ _ => rfl),
   (checkEquality_correct benchA benchB 5).2 0 5 (by decide) (by decide)⟩

/-- C6: device selection fails with the no-platform error exactly when the
platform set is empty; otherwise it takes the first platform, fails with the
no-device error when that platform's device set is empty, and otherwise
returns that platform's first device — fixed first-found choice, no scoring. -/
theorem getDefaultDevice_spec :
    ∀ (α : Type) (ps : List (List α)) (d : α) (ds : List α),
      getDefaultDevice ([] : List (List α)) = .error .noPlatform ∧
      getDefaultDevice ([] :: ps) = .error .noDevice ∧
      getDefaultDevice ((d :: ds) :: ps) = .ok d ∧
      SelectError.noPlatform.message = "no platforms found!" ∧
      SelectError.noDevice.message = "no devices found!" :=
  fun _ _ _ _ => ⟨rfl, rfl, rfl, rfl, rfl⟩

/-- C7: the benchmark driver's reported gain is
`(seqTime - parTime) / parTime * 100` — the divisor is `parTime`, and the
definition applies the division at `parTime = 0` as well (no guard): there the
value reduces to the division-by-zero convention of the scalar field instead
of a meaningful percentage. -/
theorem performanceGain_formula :
    ∀ s p : ℚ, performanceGain s p = (s - p) / p * 100 ∧
      performanceGain s 0 = 0 := by
  intro s p
  constructor
  · unfold performanceGain
    rw [div_mul_eq_mul_div, mul_comm]
  · unfold performanceGain
    simp

/-- C8 (code bug): repetitions of `parSumArrays` on identical inputs need not
yield byte-identical output. Because of the kernel-name slip recorded at C1,
no work-item is ever dispatched and each repetition returns the unspecified
contents of its own fresh, unwritten output buffer; two repetitions whose
buffers happen to differ (all zeros vs a 1 at index 0) return different
arrays, violating the claimed guarantee. The claim is right about the intent:
the dispatch of the `add` kernel itself is deterministic regardless of
execution order — concretely, opposite interleavings of the 4 work-items both
yield `3 + 5 = 8` at index 0 (and `runNDRange_perm` / `runNDRange_eq_seq`
prove the order-independence in general). -/
theorem parSum_repetitions_differ :
    parSumArrays benchA benchB (fun _ => 0) 4 (fun _ => 0) [0, 1, 2, 3] 0 = 0 ∧
    parSumArrays benchA benchB (fun _ => 0) 4 (fun _ => 1) [0, 1, 2, 3] 0 = 1 ∧
    (0 : Int) ≠ 1 ∧
    runNDRange benchA benchB (fun _ => 0) [0, 1, 2, 3] 0 = 8 ∧
    runNDRange benchA benchB (fun _ => 0) [3, 2, 1, 0] 0 = 8 := by decide

/-- C9: whenever the benchmark reaches the final report (a device exists and
the build succeeds), `main` exits with code 0 — also when the equality check
returned `false`, in which case the status line printed is `status: FAILED!`
and the exit code is still 0. -/
theorem mainAdd_exit_zero_on_report :
    ∀ (d : Nat) (ds : List Nat) (ps : List (List Nat)) (log : String)
      (cbufs : Nat → Mem) (orders : Nat → List Nat),
      (mainAdd ((d :: ds) :: ps) true log cbufs orders).exitCode = 0 ∧
      ((mainAdd ((d :: ds) :: ps) true log cbufs orders).equalFlag = some false →
        Event.stdoutMsg "status: FAILED!" ∈
          (mainAdd ((d :: ds) :: ps) true log cbufs orders).trace ∧
        (mainAdd ((d :: ds) :: ps) true log cbufs orders).exitCode = 0) := by
  intro d ds ps log cbufs orders
  refine ⟨rfl, fun hflag => ⟨?_, rfl⟩⟩
  rw [mainAdd_success] at hflag ⊢
  have heq : checkEquality benchCs (benchCp cbufs orders) ARRAYS_DIM = false := by
    simpa using hflag
  simp [heq]

theorem mainAdd_exit_zero_on_report_witness :
    Event.stdoutMsg "status: FAILED!" ∈
      (mainAdd [[0]] true "" (fun _ _ => 0) (fun _ => [])).trace ∧
    (mainAdd [[0]] true "" (fun _ _ => 0) (fun _ => [])).exitCode = 0 :=
  (mainAdd_exit_zero_on_report 0 [] [] "" (fun _ _ => 0) (fun _ => [])).2 (by
    have hne : benchCs 0 ≠ benchCp (fun _ _ => 0) (fun _ => []) 0 := by
      rw [benchCs_apply (by decide), benchCp_apply _ _ (by decide)]
      decide
    have hfalse :
        checkEquality benchCs (benchCp (fun _ _ => 0) (fun _ => []))
          ARRAYS_DIM = false :=
      checkEqualityLoop_head_ne _ _ hne (by decide)
    rw [mainAdd_success, hfalse])

/-- C10: for every `N ≤ 0` the loop of `seqSumArrays` performs no iterations
and the output array `c` is left completely unchanged. -/
theorem seqSumArrays_nonpos_frame (a b c : Mem) (N : Int) (h : N ≤ 0) :
    seqSumIterations N = 0 ∧ seqSumArrays a b c N = c := by
  have h0 : N.toNat = 0 := Int.toNat_of_nonpos h
  exact ⟨h0, by simp [seqSumArrays, seqSumIterations, h0, seqSumLoop]⟩

theorem seqSumArrays_nonpos_frame_witness :
    (-7 : Int) ≤ 0 ∧
      (seqSumIterations (-7) = 0 ∧
        seqSumArrays benchA benchB (fun _ => 0) (-7) = fun _ => 0) :=
  ⟨by decide, seqSumArrays_nonpos_frame benchA benchB (fun _ => 0) (-7) (by decide)⟩
